import Mathlib

/-!
Shallow embedding of the Medicare-Plus appointment scheduling, notification
and financial reporting core (`src/app.py`).

Database rows are modelled as Lean structures mirroring the sqlite schema;
a table is a `List` of rows.  `query(..., one=True)` is `List.find?` (first
matching row), `UPDATE ... WHERE id=?` is a `List.map` that rewrites every
row whose id matches, `INSERT` is an append.  SQL `REAL` monetary amounts
are modelled as exact rationals `ℚ`.  Optional (nullable) columns and
optional JSON request fields are `Option` types; Python truthiness of a
string (`if x:`) is "present and non-empty".  HTTP responses are modelled
by a status code together with the post-state and the list of notification
events the handler fired.
-/

namespace MedicarePlus

/-- A row of the `appointments` table (`src/app.py`, schema lines 450-458).
All columns used by the handlers; `created_at` is never read by the core
logic and is omitted. -/
structure Appointment where
  id : Nat
  patient_id : Nat
  doctor_id : Nat
  appointment_date : String
  appointment_time : String
  reason : String
  status : String
  amount : ℚ
deriving Repr, DecidableEq

/-- A row of the `patients` table: only the columns the core joins on
(`p.id`, `p.first_name||' '||p.last_name`, `p.email`).  `email` is a
nullable column. -/
structure Patient where
  id : Nat
  name : String
  email : Option String
deriving Repr, DecidableEq

/-- A row of the `doctors` table: only the columns the core joins on. -/
structure Doctor where
  id : Nat
  name : String
  department : String
deriving Repr, DecidableEq

/-- A row of the `lab_bookings` table (schema lines 467-475). -/
structure LabBooking where
  id : Nat
  patient_name : String
  patient_contact : String
  patient_email : Option String
  test_id : Option Nat
  test_name : String
  booking_date : String
  booking_time : String
  status : String
  notes : Option String
  amount : ℚ
deriving Repr, DecidableEq

/-- A row of the `radiology_bookings` table (schema lines 493-501). -/
structure RadiologyBooking where
  id : Nat
  patient_name : String
  patient_contact : String
  patient_email : Option String
  service_id : Option Nat
  service_name : String
  booking_date : String
  booking_time : String
  status : String
  notes : Option String
  amount : ℚ
deriving Repr, DecidableEq

/-- A row of the `admissions` table (schema lines 502-518).  `amount` is a
nullable `REAL` column (the report guards it with `or 0`). -/
structure Admission where
  id : Nat
  patient_id : Nat
  doctor_id : Option Nat
  ward : String
  room_no : Option String
  bed_no : Option String
  admit_date : String
  discharge_date : Option String
  diagnosis : Option String
  treatment : Option String
  amount : Option ℚ
  status : String
deriving Repr, DecidableEq

/-- HTTP-level outcome of a handler. -/
inductive Resp where
  | ok
  | created
  | badRequest
  | notFound
  | conflict
deriving Repr, DecidableEq

/-- Which e-mail template a handler used (`build_confirmation_email`,
`build_status_change_email`, the reschedule variant of the latter, and the
service-booking templates used by the lab handler). -/
inductive EmailKind where
  | confirmation
  | statusChange (newStatus : String)
  | rescheduled
  | serviceBooking
  | serviceStatus (newStatus : String)
deriving Repr, DecidableEq

/-- The admin-configured mail settings read by `get_mail_settings`. -/
structure MailSettings where
  username : String
  password : String
  enabled : Bool
deriving Repr, DecidableEq

/-- What `send_email_async` did with one request.  The background `_send`
closure wraps the SMTP session in a catch-all `try/except`, so a transport
failure is only logged: it is `failedLogged`, never an exception to the
caller. -/
inductive DispatchResult where
  | skippedNotConfigured
  | skippedInvalidRecipient
  | delivered
  | failedLogged
deriving Repr, DecidableEq

/-- `send_email_async` (`src/app.py` lines 128-156).  `deliver` is the
oracle saying whether the SMTP transport would succeed for a recipient;
its outcome is swallowed either way. -/
def send_email_async (settings : MailSettings) (deliver : String → Bool)
    (to_email : String) : DispatchResult :=
  if !settings.enabled || settings.username = "" || settings.password = "" then
    .skippedNotConfigured
  else if to_email = "" || !(to_email.toList.contains '@') then
    .skippedInvalidRecipient
  else if deliver to_email then .delivered else .failedLogged

/-- One notification request a handler passed to `send_email_async`. -/
structure EmailEvent where
  recipient : String
  kind : EmailKind
  result : DispatchResult
deriving Repr, DecidableEq

/-- Python truthiness of a nullable string column: present and non-empty. -/
def truthy : Option String → Bool
  | none => false
  | some s => s ≠ ""

/-- The `patient_email` field of the joined row
`SELECT a.*, p.email AS patient_email, ... FROM appointments a
JOIN patients p ON p.id=a.patient_id JOIN doctors d ON d.id=a.doctor_id
WHERE a.id=?` — `none` when the appointment is missing or either inner
join finds no row. -/
def fullPatientEmail (appts : List Appointment) (patients : List Patient)
    (doctors : List Doctor) (aid : Nat) : Option String :=
  match appts.find? (fun a => a.id == aid) with
  | none => none
  | some a =>
    match patients.find? (fun p => p.id == a.patient_id),
          doctors.find? (fun dd => dd.id == a.doctor_id) with
    | some p, some _ => p.email
    | _, _ => none

/-- Request body of `POST /api/appointments`. -/
structure CreateReq where
  patient_id : Nat
  doctor_id : Nat
  appointment_date : Option String
  appointment_time : Option String
  reason : Option String
deriving Repr, DecidableEq

/-- `POST /api/appointments` (`api_appointments`, lines 1192-1198): insert a
new row with status `'Pending'`; time defaults to `'09:00'`, reason to
`'General Consultation'`, amount to the column default 0.  `nid` is the
autoincrement id sqlite assigns.  A `none` date would violate the column's
NOT NULL constraint, so the date is taken as given (`getD ""` never fires
for requests the store accepts). -/
def api_appointments_post (appts : List Appointment) (nid : Nat)
    (d : CreateReq) : Resp × List Appointment :=
  (.created, appts ++
    [{ id := nid, patient_id := d.patient_id, doctor_id := d.doctor_id,
       appointment_date := d.appointment_date.getD "",
       appointment_time := d.appointment_time.getD "09:00",
       reason := d.reason.getD "General Consultation",
       status := "Pending", amount := 0 }])

/-- Request body of `POST /api/appointments/<aid>/reschedule`. -/
structure RescheduleReq where
  appointment_date : Option String
  appointment_time : Option String
deriving Repr, DecidableEq

/-- The conflict probe of the reschedule handler (line 1234-1237):
`SELECT id FROM appointments WHERE doctor_id=? AND appointment_date=? AND
appointment_time=? AND status='Confirmed' AND id!=?`. -/
def rescheduleConflict (appts : List Appointment) (doctorId : Nat)
    (newDate newTime : String) (aid : Nat) : Option Appointment :=
  appts.find? (fun a =>
    a.doctor_id == doctorId && a.appointment_date == newDate &&
    a.appointment_time == newTime && a.status == "Confirmed" && a.id != aid)

/-- `POST /api/appointments/<aid>/reschedule` (`api_appointment_reschedule`,
lines 1222-1253).  Returns the response code, the post-state of the
`appointments` table and the notification events fired.  A falsy
(`None` or empty) `appointment_time` is a 400; a different booking already
`Confirmed` at the requested slot is a 409 with no state change; otherwise
the row's date/time are rewritten and its status forced to `'Pending'`,
after which a "rescheduled" notice goes to the joined patient e-mail when
it is truthy. -/
def api_appointment_reschedule (appts : List Appointment)
    (patients : List Patient) (doctors : List Doctor)
    (settings : MailSettings) (deliver : String → Bool)
    (aid : Nat) (d : RescheduleReq) :
    Resp × List Appointment × List EmailEvent :=
  match appts.find? (fun a => a.id == aid) with
  | none => (.notFound, appts, [])
  | some row =>
    let new_date := d.appointment_date.getD row.appointment_date
    match d.appointment_time with
    | none => (.badRequest, appts, [])
    | some nt =>
      if nt = "" then (.badRequest, appts, [])
      else
        match rescheduleConflict appts row.doctor_id new_date nt aid with
        | some _ => (.conflict, appts, [])
        | none =>
          let appts' := appts.map (fun a =>
            if a.id == aid then
              { a with appointment_date := new_date,
                       appointment_time := nt, status := "Pending" }
            else a)
          let events :=
            match fullPatientEmail appts' patients doctors aid with
            | some e =>
              if e ≠ "" then
                [{ recipient := e, kind := .rescheduled,
                   result := send_email_async settings deliver e }]
              else []
            | none => []
          (.ok, appts', events)

/-- Request body of `PUT /api/appointments/<aid>`.  A field is `none` when
the JSON key is absent (the handler falls back to the stored row via
`d.get(key, row[key])`). -/
structure UpdateReq where
  status : Option String
  reason : Option String
  amount : Option ℚ
deriving Repr, DecidableEq

/-- `PUT /api/appointments/<aid>` (`api_appointment`, lines 1297-1331):
persist the requested status/reason/amount unconditionally (no conflict
check and no transition validation), then fire at most one notification:
a confirmation notice when the status moved into `'Confirmed'` from a
different value, a status-change notice when it moved into `'Completed'`,
`'Cancelled'` or `'No-Show'` from a different value, nothing otherwise.
The joined `patient_email` is read back after the update. -/
def api_appointment_put (appts : List Appointment) (patients : List Patient)
    (doctors : List Doctor) (settings : MailSettings)
    (deliver : String → Bool) (aid : Nat) (d : UpdateReq) :
    Resp × List Appointment × List EmailEvent :=
  match appts.find? (fun a => a.id == aid) with
  | none => (.notFound, appts, [])
  | some row =>
    let old_status := row.status
    let new_status := d.status.getD old_status
    let new_reason := d.reason.getD row.reason
    let new_amount := d.amount.getD row.amount
    let appts' := appts.map (fun a =>
      if a.id == aid then
        { a with status := new_status, reason := new_reason,
                 amount := new_amount }
      else a)
    let events :=
      if new_status == "Confirmed" && !(old_status == "Confirmed") then
        match fullPatientEmail appts' patients doctors aid with
        | some e =>
          if e ≠ "" then
            [{ recipient := e, kind := .confirmation,
               result := send_email_async settings deliver e }]
          else []
        | none => []
      else if (new_status == "Completed" || new_status == "Cancelled" ||
               new_status == "No-Show") && !(new_status == old_status) then
        match fullPatientEmail appts' patients doctors aid with
        | some e =>
          if e ≠ "" then
            [{ recipient := e, kind := .statusChange new_status,
               result := send_email_async settings deliver e }]
          else []
        | none => []
      else []
    (.ok, appts', events)

/-- Request body of `PUT /api/lab/bookings/<bid>`. -/
structure LabUpdateReq where
  status : Option String
  amount : Option ℚ
  notes : Option (Option String)
deriving Repr, DecidableEq

/-- `PUT /api/lab/bookings/<bid>` (`api_lab_booking`, lines 1694-1727):
persist status/notes/amount unconditionally, then, when the status changed
and the row's own `patient_email` is truthy, fire a service-booking notice
for `'Confirmed'` or a service-status notice for `'Completed'`/`'Cancelled'`
(read from the pre-update row, whose e-mail the update does not touch). -/
def api_lab_booking_put (labs : List LabBooking) (settings : MailSettings)
    (deliver : String → Bool) (bid : Nat) (d : LabUpdateReq) :
    Resp × List LabBooking × List EmailEvent :=
  match labs.find? (fun b => b.id == bid) with
  | none => (.notFound, labs, [])
  | some row =>
    let old_status := row.status
    let new_status := d.status.getD old_status
    let new_amount := d.amount.getD row.amount
    let new_notes := d.notes.getD row.notes
    let labs' := labs.map (fun b =>
      if b.id == bid then
        { b with status := new_status, notes := new_notes,
                 amount := new_amount }
      else b)
    let events :=
      if !(new_status == old_status) && truthy row.patient_email then
        match row.patient_email with
        | some e =>
          if new_status == "Confirmed" then
            [{ recipient := e, kind := .serviceBooking,
               result := send_email_async settings deliver e }]
          else if new_status == "Completed" || new_status == "Cancelled" then
            [{ recipient := e, kind := .serviceStatus new_status,
               result := send_email_async settings deliver e }]
          else []
        | none => []
      else []
    (.ok, labs', events)

/-- Zero-padded two-digit rendering used by `f"{h:02d}:{m:02d}"` for the
hour/minute values 0-59 the slot grid uses. -/
def two (n : Nat) : String :=
  if n < 10 then "0" ++ toString n else toString n

/-- `f"{h:02d}:{m:02d}"`. -/
def timeStr (h m : Nat) : String := two h ++ ":" ++ two m

/-- The fixed slot grid of `api_available_slots` (lines 1264-1269): every
half hour from 09:00 up to 17:00 inclusive (the `h == 17 and m == 30` pair
is skipped by the `break`). -/
def all_slots : List String :=
  (List.range' 9 9).flatMap (fun h =>
    ([0, 30].filter (fun m => !(h == 17 && m == 30))).map (timeStr h))

/-- One entry of the slot list returned to the client. -/
structure Slot where
  time : String
  available : Bool
deriving Repr, DecidableEq

/-- `GET /api/appointments/available-slots` (`api_available_slots`, lines
1256-1279).  `doctor_id` is `none` when the query parameter is missing or
fails Flask's `type=int` conversion (malformed input); a falsy doctor id
or empty date is a 400.  A slot is unavailable exactly when its time is
among the `'Confirmed'` bookings of that doctor on that date. -/
def api_available_slots (appts : List Appointment)
    (doctor_id : Option Nat) (date_str : String) :
    Except Resp (List Slot) :=
  match doctor_id with
  | none => .error .badRequest
  | some did =>
    if did == 0 || date_str == "" then .error .badRequest
    else
      let booked_times := (appts.filter (fun a =>
        a.doctor_id == did && a.appointment_date == date_str &&
        a.status == "Confirmed")).map (fun a => a.appointment_time)
      .ok (all_slots.map (fun s => { time := s, available := !booked_times.contains s }))

/-- One normalized billable record of `GET /api/reports/financial`
(`report_financial`, lines 1534-1629).  `date` is `Option` because the
sort key guards it with `x['date'] or ''`; `note` is absent (`none`) on
consultation records, which carry no `note` key. -/
structure BillingRecord where
  rid : String
  domain : String
  patient_name : String
  service_name : String
  department : String
  date : Option String
  status : String
  amount : ℚ
  note : Option String
deriving Repr, DecidableEq

/-- The sort key `lambda x: x['date'] or ''` of line 1607. -/
def dateKey (r : BillingRecord) : String :=
  match r.date with
  | none => ""
  | some s => s

/-- `records.sort(key=lambda x: x['date'] or '', reverse=True)` (line 1607):
a stable descending sort on the date key.  `List.insertionSort` with the
non-strict "greater-or-equal key" relation is stable, matching Python. -/
def sortRecords (rs : List BillingRecord) : List BillingRecord :=
  rs.insertionSort (fun a b => dateKey b ≤ dateKey a)

/-- Consultation rows of the report: the join of `appointments` with
`patients` and `doctors` (inner joins: rows whose patient or doctor is
missing are dropped), each mapped to the normalized record shape with
`COALESCE(a.amount, 0)` (lines 1536-1554).  The SQL `ORDER BY
appointment_date DESC` pre-ordering is applied via the same stable
descending sort. -/
def apptBillingRecords (appts : List Appointment) (patients : List Patient)
    (doctors : List Doctor) : List BillingRecord :=
  ((appts.insertionSort (fun a b => b.appointment_date ≤ a.appointment_date)).filterMap
    (fun a =>
      match patients.find? (fun p => p.id == a.patient_id),
            doctors.find? (fun dd => dd.id == a.doctor_id) with
      | some p, some dd =>
        some { rid := "APT-" ++ toString a.id, domain := "Consultation",
               patient_name := p.name,
               service_name := "Consultation — " ++ dd.name,
               department := dd.department,
               date := some a.appointment_date, status := a.status,
               amount := a.amount, note := none }
      | _, _ => none))

/-- Laboratory rows of the report (lines 1556-1569). -/
def labBillingRecords (labs : List LabBooking) : List BillingRecord :=
  (labs.insertionSort (fun a b => b.booking_date ≤ a.booking_date)).map
    (fun r =>
      { rid := "LAB-" ++ toString r.id, domain := "Laboratory",
        patient_name := r.patient_name, service_name := r.test_name,
        department := "Laboratory", date := some r.booking_date,
        status := r.status, amount := r.amount, note := some "" })

/-- Radiology rows of the report (lines 1571-1584). -/
def radBillingRecords (rads : List RadiologyBooking) : List BillingRecord :=
  (rads.insertionSort (fun a b => b.booking_date ≤ a.booking_date)).map
    (fun r =>
      { rid := "RAD-" ++ toString r.id, domain := "Radiology",
        patient_name := r.patient_name, service_name := r.service_name,
        department := "Radiology", date := some r.booking_date,
        status := r.status, amount := r.amount, note := some "" })

/-- Admission rows of the report (lines 1586-1604): inner join with
`patients`, LEFT JOIN with `doctors` (`r['department'] or 'Inpatient'`),
`r['amount'] or 0`, `r['diagnosis'] or ''`, and the ward/room service
description. -/
def admBillingRecords (adms : List Admission) (patients : List Patient)
    (doctors : List Doctor) : List BillingRecord :=
  ((adms.insertionSort (fun a b => b.admit_date ≤ a.admit_date)).filterMap
    (fun r =>
      match patients.find? (fun p => p.id == r.patient_id) with
      | none => none
      | some p =>
        let dept :=
          match r.doctor_id.bind
              (fun did => doctors.find? (fun dd => dd.id == did)) with
          | some dd => if dd.department ≠ "" then dd.department else "Inpatient"
          | none => "Inpatient"
        some { rid := "ADM-" ++ toString r.id, domain := "Admission",
               patient_name := p.name,
               service_name := "Admission — " ++ r.ward ++
                 (if truthy r.room_no then " · " ++ r.room_no.getD "" else ""),
               department := dept, date := some r.admit_date,
               status := r.status, amount := r.amount.getD 0,
               note := some (r.diagnosis.getD "") }))

/-- `sum(r['amount'] for r in records)` (line 1609). -/
def totalBilled (rs : List BillingRecord) : ℚ :=
  (rs.map (fun r => r.amount)).sum

/-- `sum(... if r['status'] == 'Completed')` (line 1610). -/
def totalCollected (rs : List BillingRecord) : ℚ :=
  ((rs.filter (fun r => r.status == "Completed")).map (fun r => r.amount)).sum

/-- `sum(... if r['status'] in ('Pending','Confirmed'))` (line 1611). -/
def totalPending (rs : List BillingRecord) : ℚ :=
  ((rs.filter (fun r => r.status == "Pending" || r.status == "Confirmed")).map
    (fun r => r.amount)).sum

/-- `sum(... if r['status'] in ('Cancelled','No-Show'))` (line 1612). -/
def totalCancelled (rs : List BillingRecord) : ℚ :=
  ((rs.filter (fun r => r.status == "Cancelled" || r.status == "No-Show")).map
    (fun r => r.amount)).sum

/-- One step of the `by_type` accumulation
`by_type[t] = by_type.get(t, 0) + r['amount']` over an insertion-ordered
association list. -/
def bump (m : List (String × ℚ)) (k : String) (v : ℚ) : List (String × ℚ) :=
  if m.any (fun kv => kv.1 == k) then
    m.map (fun kv => if kv.1 == k then (kv.1, kv.2 + v) else kv)
  else m ++ [(k, v)]

/-- The `by_type` breakdown (lines 1614-1617). -/
def byType (rs : List BillingRecord) : List (String × ℚ) :=
  rs.foldl (fun m r => bump m r.domain r.amount) []

/-- Round-half-to-even to an integer, Python's `round` on exact values.
(SQL `REAL` amounts are modelled as exact rationals, so binary floating
point artifacts are out of scope of the embedding.) -/
def roundHalfEven (q : ℚ) : ℤ :=
  let n := ⌊q⌋
  let f := q - n
  if f < 1 / 2 then n
  else if 1 / 2 < f then n + 1
  else if n % 2 = 0 then n else n + 1

/-- Python `round(x, 2)` on exact values. -/
def round2 (q : ℚ) : ℚ := (roundHalfEven (q * 100) : ℚ) / 100

/-- The `summary` object of the financial report (lines 1619-1628). -/
structure FinSummary where
  total_billed : ℚ
  collected : ℚ
  pending : ℚ
  cancelled : ℚ
  total_records : Nat
  by_type : List (String × ℚ)
deriving Repr, DecidableEq

/-- `GET /api/reports/financial` (`report_financial`, lines 1534-1629):
merge the four domains into normalized records, sort them date-descending
with missing dates keyed as `''`, and compute the summary
(each monetary total rounded to 2 decimals at output time). -/
def report_financial (appts : List Appointment) (patients : List Patient)
    (doctors : List Doctor) (labs : List LabBooking)
    (rads : List RadiologyBooking) (adms : List Admission) :
    List BillingRecord × FinSummary :=
  let records :=
    sortRecords (apptBillingRecords appts patients doctors ++
      labBillingRecords labs ++ radBillingRecords rads ++
      admBillingRecords adms patients doctors)
  (records,
   { total_billed := round2 (totalBilled records),
     collected := round2 (totalCollected records),
     pending := round2 (totalPending records),
     cancelled := round2 (totalCancelled records),
     total_records := records.length,
     by_type := byType records })

/-- Whether a notification used the status-change template. -/
def isStatusChange (k : EmailKind) : Bool :=
  match k with
  | .statusChange _ => true
  | _ => false

/-- The scheduling invariant of the spec: at most one `'Confirmed'` booking
per (doctor, date, time) slot — two `'Confirmed'` rows sharing a slot must
be the same row (same id). -/
def confirmedSlotInvariant (appts : List Appointment) : Prop :=
  ∀ a ∈ appts, ∀ b ∈ appts,
    a.status = "Confirmed" → b.status = "Confirmed" →
    a.doctor_id = b.doctor_id → a.appointment_date = b.appointment_date →
    a.appointment_time = b.appointment_time → a.id = b.id

instance (appts : List Appointment) :
    Decidable (confirmedSlotInvariant appts) := by
  unfold confirmedSlotInvariant
  infer_instance

/-! ### Helper lemmas -/

theorem string_empty_le (s : String) : "" ≤ s := by
  rw [String.le_iff_toList_le]
  exact List.nil_le

/-- `UPDATE ... WHERE key=k` commutes with `SELECT ... WHERE key=k ... LIMIT 1`
when the update does not touch the key column. -/
theorem find?_key_update {α : Type} (key : α → Nat) (l : List α) (k : Nat)
    (f : α → α) (hid : ∀ a, key (f a) = key a) :
    (l.map (fun a => if key a == k then f a else a)).find?
        (fun a => key a == k)
      = (l.find? (fun a => key a == k)).map
          (fun a => if key a == k then f a else a) := by
  rw [List.find?_map]
  have hp : ((fun a => key a == k) ∘ fun a => if key a == k then f a else a)
      = (fun a => key a == k) := by
    funext a
    simp only [Function.comp]
    by_cases h : key a == k
    · simp [h, hid]
    · simp [h]
  rw [hp]

/-- Reading back the row just updated yields the updated row. -/
theorem find?_key_update_found {α : Type} (key : α → Nat) (l : List α)
    (k : Nat) (f : α → α) (hid : ∀ a, key (f a) = key a) (row : α)
    (hrow : l.find? (fun a => key a == k) = some row) :
    (l.map (fun a => if key a == k then f a else a)).find?
        (fun a => key a == k) = some (f row) := by
  rw [find?_key_update key l k f hid, hrow]
  have h : key row = k := by simpa using List.find?_some hrow
  simp [h]

/-- An update that rewrites neither the id nor the foreign keys of an
appointment leaves the joined `patient_email` unchanged. -/
theorem fullPatientEmail_update (appts : List Appointment)
    (patients : List Patient) (doctors : List Doctor) (aid : Nat)
    (f : Appointment → Appointment)
    (hid : ∀ a, (f a).id = a.id)
    (hpat : ∀ a, (f a).patient_id = a.patient_id)
    (hdoc : ∀ a, (f a).doctor_id = a.doctor_id) :
    fullPatientEmail (appts.map (fun a => if a.id == aid then f a else a))
        patients doctors aid
      = fullPatientEmail appts patients doctors aid := by
  unfold fullPatientEmail
  rw [find?_key_update (fun a => a.id) appts aid f hid]
  cases hrow : appts.find? (fun a => a.id == aid) with
  | none => rfl
  | some a =>
    have ha : a.id = aid := by simpa using List.find?_some hrow
    simp [ha, hpat, hdoc]

/-! ### Claims -/

/-- C7 as amended: a missing or malformed (unparsable, hence `none`) or
zero provider id, or a missing/empty date, answers 400; but the date
receives no format validation beyond non-emptiness — ANY non-empty date
string (malformed or not) is accepted and yields the slot grid computed
against it (see the counterexample). -/
theorem claim_C7_slot_input_validation :
    (∀ (appts : List Appointment) (doctor_id : Option Nat)
       (date_str : String),
       doctor_id = none ∨ doctor_id = some 0 ∨ date_str = "" →
       api_available_slots appts doctor_id date_str = .error .badRequest)
    ∧ (∀ (appts : List Appointment) (did : Nat) (date_str : String),
       did ≠ 0 → date_str ≠ "" →
       api_available_slots appts (some did) date_str
         = .ok (all_slots.map (fun s =>
             { time := s,
               available := !((appts.filter (fun a =>
                 a.doctor_id == did && a.appointment_date == date_str &&
                 a.status == "Confirmed")).map
                   (fun a => a.appointment_time)).contains s }))) := by
  constructor
  · intro appts doctor_id date_str h
    rcases h with h | h | h
    · subst h; rfl
    · subst h; rfl
    · subst h
      cases doctor_id with
      | none => rfl
      | some did => simp [api_available_slots]
  · intro appts did date_str hd hdate
    have hcond : (did == 0 || date_str == "") = false := by
      simp [hd, hdate]
    have h2 : api_available_slots appts (some did) date_str
        = (if (did == 0 || date_str == "") = true then
            .error .badRequest
          else
            .ok (all_slots.map (fun s =>
              { time := s,
                available := !((appts.filter (fun a =>
                  a.doctor_id == did && a.appointment_date == date_str &&
                  a.status == "Confirmed")).map
                    (fun a => a.appointment_time)).contains s }))) := rfl
    rw [h2, hcond]
    simp

/-- Witness for C7 at concrete inputs. -/
theorem claim_C7_witness :
    api_available_slots [] none "2025-06-01" = .error .badRequest
    ∧ api_available_slots [] (some 0) "2025-06-01" = .error .badRequest
    ∧ api_available_slots [] (some 3) "2025-06-01"
      = .ok (all_slots.map (fun s =>
          { time := s,
            available := !((([] : List Appointment).filter (fun a =>
              a.doctor_id == 3 && a.appointment_date == "2025-06-01" &&
              a.status == "Confirmed")).map
                (fun a => a.appointment_time)).contains s })) :=
  ⟨claim_C7_slot_input_validation.1 [] none "2025-06-01" (Or.inl rfl),
   claim_C7_slot_input_validation.1 [] (some 0) "2025-06-01"
     (Or.inr (Or.inl rfl)),
   claim_C7_slot_input_validation.2 [] 3 "2025-06-01" (by decide) (by decide)⟩

/-- C7 counterexample: a malformed (non-date) but non-empty `date` string
is NOT reported as a client error — the handler silently answers the
default all-available slot grid for it. -/
theorem claim_C7_counterexample :
    api_available_slots [] (some 3) "not-a-date" ≠ .error .badRequest
    ∧ api_available_slots [] (some 3) "not-a-date"
      = .ok [⟨"09:00", true⟩, ⟨"09:30", true⟩, ⟨"10:00", true⟩,
             ⟨"10:30", true⟩, ⟨"11:00", true⟩, ⟨"11:30", true⟩,
             ⟨"12:00", true⟩, ⟨"12:30", true⟩, ⟨"13:00", true⟩,
             ⟨"13:30", true⟩, ⟨"14:00", true⟩, ⟨"14:30", true⟩,
             ⟨"15:00", true⟩, ⟨"15:30", true⟩, ⟨"16:00", true⟩,
             ⟨"16:30", true⟩, ⟨"17:00", true⟩] := by
  have he : api_available_slots [] (some 3) "not-a-date"
      = .ok [⟨"09:00", true⟩, ⟨"09:30", true⟩, ⟨"10:00", true⟩,
             ⟨"10:30", true⟩, ⟨"11:00", true⟩, ⟨"11:30", true⟩,
             ⟨"12:00", true⟩, ⟨"12:30", true⟩, ⟨"13:00", true⟩,
             ⟨"13:30", true⟩, ⟨"14:00", true⟩, ⟨"14:30", true⟩,
             ⟨"15:00", true⟩, ⟨"15:30", true⟩, ⟨"16:00", true⟩,
             ⟨"16:30", true⟩, ⟨"17:00", true⟩] := rfl
  exact ⟨fun h => Except.noConfusion (he.symm.trans h), he⟩

/-- C8: an empty recipient or one without `'@'` is never attempted by the
dispatcher (it is skipped, neither delivered nor failed-after-attempt), and
for every handler that fires notifications the HTTP outcome and the stored
table are identical whatever the mail settings and whatever the transport
oracle does — a notification failure neither propagates nor undoes the
committed mutation. -/
theorem claim_C8_notification_isolation :
    (∀ (settings : MailSettings) (deliver : String → Bool) (to_email : String),
       to_email = "" ∨ to_email.toList.contains '@' = false →
       send_email_async settings deliver to_email = .skippedNotConfigured ∨
       send_email_async settings deliver to_email = .skippedInvalidRecipient)
    ∧ (∀ (appts : List Appointment) (patients : List Patient)
         (doctors : List Doctor) (s₁ s₂ : MailSettings)
         (del₁ del₂ : String → Bool) (aid : Nat) (d : UpdateReq),
       (api_appointment_put appts patients doctors s₁ del₁ aid d).1
           = (api_appointment_put appts patients doctors s₂ del₂ aid d).1
       ∧ (api_appointment_put appts patients doctors s₁ del₁ aid d).2.1
           = (api_appointment_put appts patients doctors s₂ del₂ aid d).2.1)
    ∧ (∀ (appts : List Appointment) (patients : List Patient)
         (doctors : List Doctor) (s₁ s₂ : MailSettings)
         (del₁ del₂ : String → Bool) (aid : Nat) (d : RescheduleReq),
       (api_appointment_reschedule appts patients doctors s₁ del₁ aid d).1
           = (api_appointment_reschedule appts patients doctors s₂ del₂ aid d).1
       ∧ (api_appointment_reschedule appts patients doctors s₁ del₁ aid d).2.1
           = (api_appointment_reschedule appts patients doctors s₂ del₂ aid d).2.1)
    ∧ (∀ (labs : List LabBooking) (s₁ s₂ : MailSettings)
         (del₁ del₂ : String → Bool) (bid : Nat) (d : LabUpdateReq),
       (api_lab_booking_put labs s₁ del₁ bid d).1
           = (api_lab_booking_put labs s₂ del₂ bid d).1
       ∧ (api_lab_booking_put labs s₁ del₁ bid d).2.1
           = (api_lab_booking_put labs s₂ del₂ bid d).2.1) := by
  refine ⟨?_, ?_, ?_, ?_⟩
  · intro settings deliver to_email h
    unfold send_email_async
    by_cases hc : !settings.enabled || settings.username = "" ||
        settings.password = ""
    · simp [hc]
    · rcases h with h | h
      · refine Or.inr ?_
        simp [hc, h]
      · have hmem : ¬ ('@' ∈ to_email.data) := by
          simpa [String.toList] using h
        refine Or.inr ?_
        simp [hc, hmem]
  · intro appts patients doctors s₁ s₂ del₁ del₂ aid d
    unfold api_appointment_put
    cases appts.find? (fun a => a.id == aid) <;> exact ⟨rfl, rfl⟩
  · intro appts patients doctors s₁ s₂ del₁ del₂ aid d
    unfold api_appointment_reschedule
    cases appts.find? (fun a => a.id == aid) with
    | none => exact ⟨rfl, rfl⟩
    | some row =>
      cases d.appointment_time with
      | none => exact ⟨rfl, rfl⟩
      | some nt =>
        by_cases hnt : nt = ""
        · simp [hnt]
        · simp only [if_neg hnt]
          cases rescheduleConflict appts row.doctor_id
              (d.appointment_date.getD row.appointment_date) nt aid <;>
            exact ⟨rfl, rfl⟩
  · intro labs s₁ s₂ del₁ del₂ bid d
    unfold api_lab_booking_put
    cases labs.find? (fun b => b.id == bid) <;> exact ⟨rfl, rfl⟩

/-- Witness for C8 at concrete inputs. -/
theorem claim_C8_witness :
    (send_email_async ⟨"u", "p", true⟩ (fun _ => true) "nobody"
        = .skippedNotConfigured ∨
     send_email_async ⟨"u", "p", true⟩ (fun _ => true) "nobody"
        = .skippedInvalidRecipient)
    ∧ ((api_appointment_put [] [] [] ⟨"u", "p", true⟩ (fun _ => true) 1
          ⟨none, none, none⟩).1
        = (api_appointment_put [] [] [] ⟨"", "", false⟩ (fun _ => false) 1
          ⟨none, none, none⟩).1
       ∧ (api_appointment_put [] [] [] ⟨"u", "p", true⟩ (fun _ => true) 1
          ⟨none, none, none⟩).2.1
        = (api_appointment_put [] [] [] ⟨"", "", false⟩ (fun _ => false) 1
          ⟨none, none, none⟩).2.1) :=
  ⟨claim_C8_notification_isolation.1 ⟨"u", "p", true⟩ (fun _ => true) "nobody"
      (Or.inr (by decide)),
   claim_C8_notification_isolation.2.1 [] [] [] ⟨"u", "p", true⟩
      ⟨"", "", false⟩ (fun _ => true) (fun _ => false) 1 ⟨none, none, none⟩⟩

/-- C10: the status-update handlers accept any caller-supplied target status
(terminal prior statuses and strings outside the defined status set
included), answer 200 and store exactly the supplied value — no transition
is ever rejected. -/
theorem claim_C10_no_transition_validation :
    (∀ (appts : List Appointment) (patients : List Patient)
       (doctors : List Doctor) (settings : MailSettings)
       (deliver : String → Bool) (aid : Nat) (d : UpdateReq)
       (row : Appointment) (t : String),
       appts.find? (fun a => a.id == aid) = some row → d.status = some t →
       (api_appointment_put appts patients doctors settings deliver aid d).1
           = .ok
       ∧ (api_appointment_put appts patients doctors settings deliver
            aid d).2.1.find? (fun a => a.id == aid)
           = some { row with
               status := t, reason := d.reason.getD row.reason,
               amount := d.amount.getD row.amount })
    ∧ (∀ (labs : List LabBooking) (settings : MailSettings)
         (deliver : String → Bool) (bid : Nat) (d : LabUpdateReq)
         (row : LabBooking) (t : String),
       labs.find? (fun b => b.id == bid) = some row → d.status = some t →
       (api_lab_booking_put labs settings deliver bid d).1 = .ok
       ∧ (api_lab_booking_put labs settings deliver
            bid d).2.1.find? (fun b => b.id == bid)
           = some { row with
               status := t, notes := d.notes.getD row.notes,
               amount := d.amount.getD row.amount }) := by
  constructor
  · intro appts patients doctors settings deliver aid d row t hrow hst
    unfold api_appointment_put
    rw [hrow]
    simp only [hst, Option.getD_some]
    refine ⟨trivial, ?_⟩
    refine find?_key_update_found (fun a => a.id) appts aid
      (fun a => { a with
        status := t, reason := d.reason.getD row.reason,
        amount := d.amount.getD row.amount })
      ?_ row hrow
    intro a
    rfl
  · intro labs settings deliver bid d row t hrow hst
    unfold api_lab_booking_put
    rw [hrow]
    simp only [hst, Option.getD_some]
    refine ⟨trivial, ?_⟩
    refine find?_key_update_found (fun b => b.id) labs bid
      (fun b => { b with
        status := t, notes := d.notes.getD row.notes,
        amount := d.amount.getD row.amount })
      ?_ row hrow
    intro b
    rfl

/-- Witness for C10 at a concrete input: a booking already in terminal
status `'Completed'` is moved to the undefined status `'Garbage'`. -/
theorem claim_C10_witness :
    (api_appointment_put
        [{ id := 1, patient_id := 1, doctor_id := 3,
           appointment_date := "2025-06-01", appointment_time := "10:00",
           reason := "r", status := "Completed", amount := 0 }]
        [] [] ⟨"", "", false⟩ (fun _ => false) 1
        ⟨some "Garbage", none, none⟩).1 = .ok
    ∧ (api_appointment_put
        [{ id := 1, patient_id := 1, doctor_id := 3,
           appointment_date := "2025-06-01", appointment_time := "10:00",
           reason := "r", status := "Completed", amount := 0 }]
        [] [] ⟨"", "", false⟩ (fun _ => false) 1
        ⟨some "Garbage", none, none⟩).2.1.find? (fun a => a.id == 1)
      = some { id := 1, patient_id := 1, doctor_id := 3,
               appointment_date := "2025-06-01", appointment_time := "10:00",
               reason := "r", status := "Garbage", amount := 0 } :=
  claim_C10_no_transition_validation.1
    [{ id := 1, patient_id := 1, doctor_id := 3,
       appointment_date := "2025-06-01", appointment_time := "10:00",
       reason := "r", status := "Completed", amount := 0 }]
    [] [] ⟨"", "", false⟩ (fun _ => false) 1 ⟨some "Garbage", none, none⟩
    { id := 1, patient_id := 1, doctor_id := 3,
      appointment_date := "2025-06-01", appointment_time := "10:00",
      reason := "r", status := "Completed", amount := 0 } "Garbage" rfl rfl

/-- C2: rescheduling an existing booking to a slot already `'Confirmed'` by
a different booking answers 409 and leaves the whole table (hence both
bookings) unchanged; with no such conflict it answers 200, rewrites the
booking's date and time and forces its status to `'Pending'`. -/
theorem claim_C2_reschedule_conflict (appts : List Appointment)
    (patients : List Patient) (doctors : List Doctor)
    (settings : MailSettings) (deliver : String → Bool) (aid : Nat)
    (d : RescheduleReq) (row : Appointment) (nt : String)
    (hrow : appts.find? (fun a => a.id == aid) = some row)
    (htime : d.appointment_time = some nt) (hnt : nt ≠ "") :
    (∀ c, rescheduleConflict appts row.doctor_id
          (d.appointment_date.getD row.appointment_date) nt aid = some c →
       (api_appointment_reschedule appts patients doctors settings deliver
          aid d).1 = .conflict
       ∧ (api_appointment_reschedule appts patients doctors settings deliver
            aid d).2.1 = appts)
    ∧ (rescheduleConflict appts row.doctor_id
          (d.appointment_date.getD row.appointment_date) nt aid = none →
       (api_appointment_reschedule appts patients doctors settings deliver
          aid d).1 = .ok
       ∧ (api_appointment_reschedule appts patients doctors settings deliver
            aid d).2.1.find? (fun a => a.id == aid)
          = some { row with
              appointment_date := d.appointment_date.getD row.appointment_date,
              appointment_time := nt, status := "Pending" }) := by
  unfold api_appointment_reschedule
  rw [hrow, htime]
  simp only [if_neg hnt]
  constructor
  · intro c hc
    rw [hc]
    exact ⟨rfl, rfl⟩
  · intro hnone
    rw [hnone]
    refine ⟨rfl, ?_⟩
    refine find?_key_update_found (fun a => a.id) appts aid
      (fun a => { a with
        appointment_date := d.appointment_date.getD row.appointment_date,
        appointment_time := nt, status := "Pending" })
      ?_ row hrow
    intro a
    rfl

/-- Witness for C2 at a concrete input: booking 2 is rescheduled onto the
slot booking 1 holds as `'Confirmed'`, and the table is untouched. -/
theorem claim_C2_witness :
    (api_appointment_reschedule
        [{ id := 1, patient_id := 1, doctor_id := 3,
           appointment_date := "2025-06-01", appointment_time := "10:00",
           reason := "r", status := "Confirmed", amount := 0 },
         { id := 2, patient_id := 2, doctor_id := 3,
           appointment_date := "2025-06-02", appointment_time := "11:00",
           reason := "r", status := "Pending", amount := 0 }]
        [] [] ⟨"", "", false⟩ (fun _ => false) 2
        ⟨some "2025-06-01", some "10:00"⟩).1 = .conflict
    ∧ (api_appointment_reschedule
        [{ id := 1, patient_id := 1, doctor_id := 3,
           appointment_date := "2025-06-01", appointment_time := "10:00",
           reason := "r", status := "Confirmed", amount := 0 },
         { id := 2, patient_id := 2, doctor_id := 3,
           appointment_date := "2025-06-02", appointment_time := "11:00",
           reason := "r", status := "Pending", amount := 0 }]
        [] [] ⟨"", "", false⟩ (fun _ => false) 2
        ⟨some "2025-06-01", some "10:00"⟩).2.1
      = [{ id := 1, patient_id := 1, doctor_id := 3,
           appointment_date := "2025-06-01", appointment_time := "10:00",
           reason := "r", status := "Confirmed", amount := 0 },
         { id := 2, patient_id := 2, doctor_id := 3,
           appointment_date := "2025-06-02", appointment_time := "11:00",
           reason := "r", status := "Pending", amount := 0 }] :=
  (claim_C2_reschedule_conflict
      [{ id := 1, patient_id := 1, doctor_id := 3,
         appointment_date := "2025-06-01", appointment_time := "10:00",
         reason := "r", status := "Confirmed", amount := 0 },
       { id := 2, patient_id := 2, doctor_id := 3,
         appointment_date := "2025-06-02", appointment_time := "11:00",
         reason := "r", status := "Pending", amount := 0 }]
      [] [] ⟨"", "", false⟩ (fun _ => false) 2
      ⟨some "2025-06-01", some "10:00"⟩
      { id := 2, patient_id := 2, doctor_id := 3,
        appointment_date := "2025-06-02", appointment_time := "11:00",
        reason := "r", status := "Pending", amount := 0 }
      "10:00" rfl rfl (by decide)).1
    { id := 1, patient_id := 1, doctor_id := 3,
      appointment_date := "2025-06-01", appointment_time := "10:00",
      reason := "r", status := "Confirmed", amount := 0 } rfl

/-- C9 counterexample: the claim "the stored amount is never negative" is
false — the status-update handler persists a caller-supplied negative
amount (no sign validation exists anywhere in the handlers). -/
theorem claim_C9_counterexample :
    (api_appointment_put
        [{ id := 1, patient_id := 1, doctor_id := 3,
           appointment_date := "2025-06-01", appointment_time := "10:00",
           reason := "r", status := "Pending", amount := 5 }]
        [] [] ⟨"", "", false⟩ (fun _ => false) 1
        ⟨none, none, some (-1)⟩).1 = .ok
    ∧ (api_appointment_put
        [{ id := 1, patient_id := 1, doctor_id := 3,
           appointment_date := "2025-06-01", appointment_time := "10:00",
           reason := "r", status := "Pending", amount := 5 }]
        [] [] ⟨"", "", false⟩ (fun _ => false) 1
        ⟨none, none, some (-1)⟩).2.1
      = [{ id := 1, patient_id := 1, doctor_id := 3,
           appointment_date := "2025-06-01", appointment_time := "10:00",
           reason := "r", status := "Pending", amount := -1 }]
    ∧ ((-1 : ℚ) < 0) := by
  refine ⟨rfl, rfl, by decide⟩

/-- C9 as amended: the handlers perform no sign validation on `amount` —
the stored amount is exactly the caller-supplied value, negative included;
and an amount change submitted with an unchanged (or absent) status is
persisted without altering the status. -/
theorem claim_C9_amended :
    (∀ (appts : List Appointment) (patients : List Patient)
       (doctors : List Doctor) (settings : MailSettings)
       (deliver : String → Bool) (aid : Nat) (d : UpdateReq)
       (row : Appointment) (amt : ℚ),
       appts.find? (fun a => a.id == aid) = some row → d.amount = some amt →
       d.status = none ∨ d.status = some row.status →
       (api_appointment_put appts patients doctors settings deliver aid d).1
           = .ok
       ∧ (api_appointment_put appts patients doctors settings deliver
            aid d).2.1.find? (fun a => a.id == aid)
           = some { row with
               status := row.status, reason := d.reason.getD row.reason,
               amount := amt })
    ∧ (∀ (labs : List LabBooking) (settings : MailSettings)
         (deliver : String → Bool) (bid : Nat) (d : LabUpdateReq)
         (row : LabBooking) (amt : ℚ),
       labs.find? (fun b => b.id == bid) = some row → d.amount = some amt →
       d.status = none ∨ d.status = some row.status →
       (api_lab_booking_put labs settings deliver bid d).1 = .ok
       ∧ (api_lab_booking_put labs settings deliver
            bid d).2.1.find? (fun b => b.id == bid)
           = some { row with
               status := row.status, notes := d.notes.getD row.notes,
               amount := amt }) := by
  constructor
  · intro appts patients doctors settings deliver aid d row amt hrow hamt hst
    have hgetd : d.status.getD row.status = row.status := by
      rcases hst with h | h <;> simp [h]
    unfold api_appointment_put
    rw [hrow]
    simp only [hamt, hgetd, Option.getD_some]
    refine ⟨trivial, ?_⟩
    refine find?_key_update_found (fun a => a.id) appts aid
      (fun a => { a with
        status := row.status, reason := d.reason.getD row.reason,
        amount := amt })
      ?_ row hrow
    intro a
    rfl
  · intro labs settings deliver bid d row amt hrow hamt hst
    have hgetd : d.status.getD row.status = row.status := by
      rcases hst with h | h <;> simp [h]
    unfold api_lab_booking_put
    rw [hrow]
    simp only [hamt, hgetd, Option.getD_some]
    refine ⟨trivial, ?_⟩
    refine find?_key_update_found (fun b => b.id) labs bid
      (fun b => { b with
        status := row.status, notes := d.notes.getD row.notes,
        amount := amt })
      ?_ row hrow
    intro b
    rfl

/-- Witness for the amended C9 at a concrete input: a retroactive amount
correction with the status field absent is persisted with the status
untouched (the persisted value being whatever the caller sent). -/
theorem claim_C9_witness :
    (api_appointment_put
        [{ id := 1, patient_id := 1, doctor_id := 3,
           appointment_date := "2025-06-01", appointment_time := "10:00",
           reason := "r", status := "Completed", amount := 5 }]
        [] [] ⟨"", "", false⟩ (fun _ => false) 1
        ⟨none, none, some 650⟩).1 = .ok
    ∧ (api_appointment_put
        [{ id := 1, patient_id := 1, doctor_id := 3,
           appointment_date := "2025-06-01", appointment_time := "10:00",
           reason := "r", status := "Completed", amount := 5 }]
        [] [] ⟨"", "", false⟩ (fun _ => false) 1
        ⟨none, none, some 650⟩).2.1.find? (fun a => a.id == 1)
      = some { id := 1, patient_id := 1, doctor_id := 3,
               appointment_date := "2025-06-01", appointment_time := "10:00",
               reason := "r", status := "Completed", amount := 650 } :=
  claim_C9_amended.1
    [{ id := 1, patient_id := 1, doctor_id := 3,
       appointment_date := "2025-06-01", appointment_time := "10:00",
       reason := "r", status := "Completed", amount := 5 }]
    [] [] ⟨"", "", false⟩ (fun _ => false) 1 ⟨none, none, some 650⟩
    { id := 1, patient_id := 1, doctor_id := 3,
      appointment_date := "2025-06-01", appointment_time := "10:00",
      reason := "r", status := "Completed", amount := 5 } 650
    rfl rfl (Or.inl rfl)

/-- C1 counterexample: the claim is false for the status-update operation —
starting from a state satisfying the at-most-one-`'Confirmed'`-per-slot
invariant, a `PUT` that moves booking 2 into `'Confirmed'` on the slot that
booking 1 already holds as `'Confirmed'` is NOT rejected with a conflict:
it answers 200, changes state, and the resulting table violates the
invariant (the handler has no conflict check). -/
theorem claim_C1_counterexample :
    confirmedSlotInvariant
      [{ id := 1, patient_id := 1, doctor_id := 3,
         appointment_date := "2025-06-01", appointment_time := "10:00",
         reason := "r", status := "Confirmed", amount := 0 },
       { id := 2, patient_id := 2, doctor_id := 3,
         appointment_date := "2025-06-01", appointment_time := "10:00",
         reason := "r", status := "Pending", amount := 0 }]
    ∧ (api_appointment_put
        [{ id := 1, patient_id := 1, doctor_id := 3,
           appointment_date := "2025-06-01", appointment_time := "10:00",
           reason := "r", status := "Confirmed", amount := 0 },
         { id := 2, patient_id := 2, doctor_id := 3,
           appointment_date := "2025-06-01", appointment_time := "10:00",
           reason := "r", status := "Pending", amount := 0 }]
        [] [] ⟨"", "", false⟩ (fun _ => false) 2
        ⟨some "Confirmed", none, none⟩).1 = .ok
    ∧ (api_appointment_put
        [{ id := 1, patient_id := 1, doctor_id := 3,
           appointment_date := "2025-06-01", appointment_time := "10:00",
           reason := "r", status := "Confirmed", amount := 0 },
         { id := 2, patient_id := 2, doctor_id := 3,
           appointment_date := "2025-06-01", appointment_time := "10:00",
           reason := "r", status := "Pending", amount := 0 }]
        [] [] ⟨"", "", false⟩ (fun _ => false) 2
        ⟨some "Confirmed", none, none⟩).2.1
      ≠ [{ id := 1, patient_id := 1, doctor_id := 3,
           appointment_date := "2025-06-01", appointment_time := "10:00",
           reason := "r", status := "Confirmed", amount := 0 },
         { id := 2, patient_id := 2, doctor_id := 3,
           appointment_date := "2025-06-01", appointment_time := "10:00",
           reason := "r", status := "Pending", amount := 0 }]
    ∧ ¬ confirmedSlotInvariant
        (api_appointment_put
          [{ id := 1, patient_id := 1, doctor_id := 3,
             appointment_date := "2025-06-01", appointment_time := "10:00",
             reason := "r", status := "Confirmed", amount := 0 },
           { id := 2, patient_id := 2, doctor_id := 3,
             appointment_date := "2025-06-01", appointment_time := "10:00",
             reason := "r", status := "Pending", amount := 0 }]
          [] [] ⟨"", "", false⟩ (fun _ => false) 2
          ⟨some "Confirmed", none, none⟩).2.1 := by
  refine ⟨by decide, rfl, by decide, by decide⟩

/-- C1 as amended: the at-most-one-`'Confirmed'`-per-slot invariant is
preserved by create (which always inserts `'Pending'`) and by reschedule
(which rejects a slot `'Confirmed'` by a different booking with a conflict
— and whenever it answers conflict the state is unchanged — and otherwise
forces the moved booking to `'Pending'`); it is NOT enforced by the
status-update operation, which persists `'Confirmed'` without any conflict
check (see the counterexample). -/
theorem claim_C1_amended (appts : List Appointment) (patients : List Patient)
    (doctors : List Doctor) (settings : MailSettings)
    (deliver : String → Bool) (nid : Nat) (cd : CreateReq) (aid : Nat)
    (rd : RescheduleReq) (hinv : confirmedSlotInvariant appts) :
    confirmedSlotInvariant (api_appointments_post appts nid cd).2
    ∧ confirmedSlotInvariant
        (api_appointment_reschedule appts patients doctors settings deliver
          aid rd).2.1
    ∧ ((api_appointment_reschedule appts patients doctors settings deliver
          aid rd).1 = .conflict →
       (api_appointment_reschedule appts patients doctors settings deliver
          aid rd).2.1 = appts) := by
  refine ⟨?_, ?_, ?_⟩
  · -- create inserts a `'Pending'` row, which can join no Confirmed pair
    unfold api_appointments_post
    intro a ha b hb hsa hsb h1 h2 h3
    rcases List.mem_append.mp ha with ha | ha
    · rcases List.mem_append.mp hb with hb | hb
      · exact hinv a ha b hb hsa hsb h1 h2 h3
      · rw [List.mem_singleton.mp hb] at hsb
        simp at hsb
    · rw [List.mem_singleton.mp ha] at hsa
      simp at hsa
  · -- reschedule either leaves the table alone or forces a row to Pending
    unfold api_appointment_reschedule
    cases hrow : appts.find? (fun a => a.id == aid) with
    | none => simpa using hinv
    | some row =>
      cases htime : rd.appointment_time with
      | none => simpa using hinv
      | some nt =>
        by_cases hnt : nt = ""
        · simp only [if_pos hnt]
          simpa using hinv
        · simp only [if_neg hnt]
          cases hc : rescheduleConflict appts row.doctor_id
              (rd.appointment_date.getD row.appointment_date) nt aid with
          | some c => simpa using hinv
          | none =>
            show confirmedSlotInvariant
              (appts.map (fun a =>
                if a.id == aid then
                  { a with
                    appointment_date :=
                      rd.appointment_date.getD row.appointment_date,
                    appointment_time := nt, status := "Pending" }
                else a))
            intro a' ha' b' hb' hsa hsb h1 h2 h3
            rcases List.mem_map.mp ha' with ⟨a, ha, rfl⟩
            rcases List.mem_map.mp hb' with ⟨b, hb, rfl⟩
            by_cases hA : (a.id == aid) = true
            · simp [hA] at hsa
            · by_cases hB : (b.id == aid) = true
              · simp [hB] at hsb
              · simp only [hA, if_false, Bool.false_eq_true] at hsa h1 h2 h3 ⊢
                simp only [hB, if_false, Bool.false_eq_true] at hsb h1 h2 h3 ⊢
                exact hinv a ha b hb hsa hsb h1 h2 h3
  · -- every conflict answer leaves the table unchanged
    unfold api_appointment_reschedule
    cases hrow : appts.find? (fun a => a.id == aid) with
    | none =>
      intro h
      simp at h
    | some row =>
      cases htime : rd.appointment_time with
      | none =>
        intro h
        simp at h
      | some nt =>
        by_cases hnt : nt = ""
        · simp only [if_pos hnt]
          intro h
          simp at h
        · simp only [if_neg hnt]
          cases hc : rescheduleConflict appts row.doctor_id
              (rd.appointment_date.getD row.appointment_date) nt aid with
          | some c =>
            intro _
            rfl
          | none =>
            intro h
            simp at h

/-- Witness for the amended C1 at a concrete input. -/
theorem claim_C1_witness :
    confirmedSlotInvariant
      (api_appointments_post
        [{ id := 1, patient_id := 1, doctor_id := 3,
           appointment_date := "2025-06-01", appointment_time := "10:00",
           reason := "r", status := "Confirmed", amount := 0 }]
        2 ⟨2, 3, some "2025-06-01", some "10:00", none⟩).2 :=
  (claim_C1_amended
    [{ id := 1, patient_id := 1, doctor_id := 3,
       appointment_date := "2025-06-01", appointment_time := "10:00",
       reason := "r", status := "Confirmed", amount := 0 }]
    [] [] ⟨"", "", false⟩ (fun _ => false) 2
    ⟨2, 3, some "2025-06-01", some "10:00", none⟩ 1 ⟨none, none⟩
    (by decide)).1

/-- C3: for a status update on an existing booking whose joined patient
e-mail is present and non-empty, writing prior status `s` and target `t`:
exactly one confirmation notice is fired iff `t = 'Confirmed' ∧
s ≠ 'Confirmed'`; exactly one status-change notice is fired iff
`t ∈ {'Completed','Cancelled','No-Show'} ∧ t ≠ s`; and a same-status
update fires nothing. -/
theorem claim_C3_notification_gating (appts : List Appointment)
    (patients : List Patient) (doctors : List Doctor)
    (settings : MailSettings) (deliver : String → Bool) (aid : Nat)
    (d : UpdateReq) (row : Appointment) (e t s : String)
    (hrow : appts.find? (fun a => a.id == aid) = some row)
    (hmail : fullPatientEmail appts patients doctors aid = some e)
    (he : e ≠ "")
    (ht : d.status.getD row.status = t) (hs : row.status = s) :
    ((api_appointment_put appts patients doctors settings deliver
        aid d).2.2.countP (fun m => m.kind == .confirmation) = 1
      ↔ (t = "Confirmed" ∧ s ≠ "Confirmed"))
    ∧ ((api_appointment_put appts patients doctors settings deliver
        aid d).2.2.countP (fun m => isStatusChange m.kind) = 1
      ↔ ((t = "Completed" ∨ t = "Cancelled" ∨ t = "No-Show") ∧ t ≠ s))
    ∧ (t = s →
      (api_appointment_put appts patients doctors settings deliver
        aid d).2.2 = []) := by
  unfold api_appointment_put
  rw [hrow]
  simp only [ht]
  simp only [hs]
  rw [fullPatientEmail_update appts patients doctors aid
      (fun a => { a with
        status := t, reason := d.reason.getD row.reason,
        amount := d.amount.getD row.amount })
      (fun a => rfl) (fun a => rfl) (fun a => rfl), hmail]
  by_cases h1 : t = "Confirmed"
  · by_cases h2 : s = "Confirmed"
    · simp [h1, h2, List.countP_cons, isStatusChange]
    · have h2' : ¬("Confirmed" = s) := fun h => h2 h.symm
      simp [h1, h2, h2', he, List.countP_cons, isStatusChange]
  · by_cases h3 : t = "Completed" ∨ t = "Cancelled" ∨ t = "No-Show"
    · by_cases h4 : t = s
      · rcases h3 with h3 | h3 | h3
        · have h5 : s = "Completed" := h4.symm.trans h3
          simp [h1, h3, h5, he, List.countP_cons, isStatusChange]
        · have h5 : s = "Cancelled" := h4.symm.trans h3
          simp [h1, h3, h5, he, List.countP_cons, isStatusChange]
        · have h5 : s = "No-Show" := h4.symm.trans h3
          simp [h1, h3, h5, he, List.countP_cons, isStatusChange]
      · rcases h3 with h3 | h3 | h3
        · have h6 : ¬("Completed" = s) := fun h => h4 (h3.trans h)
          simp [h1, h3, h6, he, List.countP_cons, isStatusChange]
        · have h6 : ¬("Cancelled" = s) := fun h => h4 (h3.trans h)
          simp [h1, h3, h6, he, List.countP_cons, isStatusChange]
        · have h6 : ¬("No-Show" = s) := fun h => h4 (h3.trans h)
          simp [h1, h3, h6, he, List.countP_cons, isStatusChange]
    · have hc : t ≠ "Completed" ∧ t ≠ "Cancelled" ∧ t ≠ "No-Show" := by
        refine ⟨?_, ?_, ?_⟩ <;> intro h <;> exact h3 (by simp [h])
      simp [h1, hc.1, hc.2.1, hc.2.2, List.countP_cons, isStatusChange]

/-- Witness for C3 at a concrete input: a `'Pending'` booking with a valid
patient e-mail is moved to `'Confirmed'`. -/
theorem claim_C3_witness :
    ((api_appointment_put
        [{ id := 1, patient_id := 1, doctor_id := 1,
           appointment_date := "2025-06-01", appointment_time := "10:00",
           reason := "r", status := "Pending", amount := 0 }]
        [{ id := 1, name := "John Doe", email := some "j@x.com" }]
        [{ id := 1, name := "Dr A", department := "Cardiology" }]
        ⟨"u", "p", true⟩ (fun _ => true) 1
        ⟨some "Confirmed", none, none⟩).2.2.countP
          (fun m => m.kind == .confirmation) = 1
      ↔ (("Confirmed" : String) = "Confirmed"
          ∧ ("Pending" : String) ≠ "Confirmed"))
    ∧ ((api_appointment_put
        [{ id := 1, patient_id := 1, doctor_id := 1,
           appointment_date := "2025-06-01", appointment_time := "10:00",
           reason := "r", status := "Pending", amount := 0 }]
        [{ id := 1, name := "John Doe", email := some "j@x.com" }]
        [{ id := 1, name := "Dr A", department := "Cardiology" }]
        ⟨"u", "p", true⟩ (fun _ => true) 1
        ⟨some "Confirmed", none, none⟩).2.2.countP
          (fun m => isStatusChange m.kind) = 1
      ↔ ((("Confirmed" : String) = "Completed"
            ∨ ("Confirmed" : String) = "Cancelled"
            ∨ ("Confirmed" : String) = "No-Show")
          ∧ ("Confirmed" : String) ≠ "Pending"))
    ∧ (("Confirmed" : String) = "Pending" →
      (api_appointment_put
        [{ id := 1, patient_id := 1, doctor_id := 1,
           appointment_date := "2025-06-01", appointment_time := "10:00",
           reason := "r", status := "Pending", amount := 0 }]
        [{ id := 1, name := "John Doe", email := some "j@x.com" }]
        [{ id := 1, name := "Dr A", department := "Cardiology" }]
        ⟨"u", "p", true⟩ (fun _ => true) 1
        ⟨some "Confirmed", none, none⟩).2.2 = []) :=
  claim_C3_notification_gating
    [{ id := 1, patient_id := 1, doctor_id := 1,
       appointment_date := "2025-06-01", appointment_time := "10:00",
       reason := "r", status := "Pending", amount := 0 }]
    [{ id := 1, name := "John Doe", email := some "j@x.com" }]
    [{ id := 1, name := "Dr A", department := "Cardiology" }]
    ⟨"u", "p", true⟩ (fun _ => true) 1 ⟨some "Confirmed", none, none⟩
    { id := 1, patient_id := 1, doctor_id := 1,
      appointment_date := "2025-06-01", appointment_time := "10:00",
      reason := "r", status := "Pending", amount := 0 }
    "j@x.com" "Confirmed" "Pending" rfl rfl (by decide) rfl rfl

/-- C4: in any successful slot-list answer, a slot is annotated unavailable
iff some booking exists for that exact (doctor, date, time) with status
`'Confirmed'`; bookings in any other status leave the slot available. -/
theorem claim_C4_slot_availability (appts : List Appointment) (did : Nat)
    (date_str : String) (slots : List Slot)
    (h : api_available_slots appts (some did) date_str = .ok slots) :
    ∀ sl ∈ slots,
      (sl.available = false ↔
        ∃ a ∈ appts, a.doctor_id = did ∧ a.appointment_date = date_str ∧
          a.appointment_time = sl.time ∧ a.status = "Confirmed") := by
  have h2 : (if (did == 0 || date_str == "") = true then
        (Except.error Resp.badRequest : Except Resp (List Slot))
      else
        Except.ok (all_slots.map (fun s =>
          { time := s,
            available := !((appts.filter (fun a =>
              a.doctor_id == did && a.appointment_date == date_str &&
              a.status == "Confirmed")).map
                (fun a => a.appointment_time)).contains s })))
      = Except.ok slots := h
  by_cases hcond : (did == 0 || date_str == "") = true
  · rw [if_pos hcond] at h2
    cases h2
  · rw [if_neg hcond] at h2
    simp only [Except.ok.injEq] at h2
    subst h2
    intro sl hsl
    obtain ⟨st, hst, rfl⟩ := List.mem_map.mp hsl
    simp only [Bool.not_eq_false', List.elem_iff, List.mem_map,
      List.mem_filter, Bool.and_eq_true, beq_iff_eq]
    constructor
    · rintro ⟨a, ⟨ha, ⟨hdoc, hdate⟩, hstat⟩, htime⟩
      exact ⟨a, ha, hdoc, hdate, htime, hstat⟩
    · rintro ⟨a, ha, hdoc, hdate, htime, hstat⟩
      exact ⟨a, ⟨ha, ⟨hdoc, hdate⟩, hstat⟩, htime⟩

/-- Witness for C4 at a concrete input: with one `'Confirmed'` booking at
10:00, the 10:00 slot of the returned grid is annotated unavailable. -/
theorem claim_C4_witness :
    (Slot.mk "10:00" false).available = false ↔
      ∃ a ∈ [{ id := 1, patient_id := 1, doctor_id := 3,
               appointment_date := "2025-06-01", appointment_time := "10:00",
               reason := "r", status := "Confirmed",
               amount := 0 : Appointment }],
        a.doctor_id = 3 ∧ a.appointment_date = "2025-06-01" ∧
        a.appointment_time = (Slot.mk "10:00" false).time ∧
        a.status = "Confirmed" :=
  claim_C4_slot_availability
    [{ id := 1, patient_id := 1, doctor_id := 3,
       appointment_date := "2025-06-01", appointment_time := "10:00",
       reason := "r", status := "Confirmed", amount := 0 }]
    3 "2025-06-01"
    [⟨"09:00", true⟩, ⟨"09:30", true⟩, ⟨"10:00", false⟩, ⟨"10:30", true⟩,
     ⟨"11:00", true⟩, ⟨"11:30", true⟩, ⟨"12:00", true⟩, ⟨"12:30", true⟩,
     ⟨"13:00", true⟩, ⟨"13:30", true⟩, ⟨"14:00", true⟩, ⟨"14:30", true⟩,
     ⟨"15:00", true⟩, ⟨"15:30", true⟩, ⟨"16:00", true⟩, ⟨"16:30", true⟩,
     ⟨"17:00", true⟩]
    rfl ⟨"10:00", false⟩ (by decide)

/-- C6: the record sort of the financial report is descending on the date
key (`x['date'] or ''`), for any record list and in particular for the
report's merged list; since a missing/null date is keyed `''`, the minimum
of the string order, every record whose key is non-empty precedes every
record with a missing date — missing dates sort last. -/
theorem claim_C6_report_date_sorted :
    (∀ rs : List BillingRecord,
      List.Pairwise (fun a b => dateKey b ≤ dateKey a ∧
        (dateKey a = "" → dateKey b = "")) (sortRecords rs))
    ∧ ∀ (appts : List Appointment) (patients : List Patient)
        (doctors : List Doctor) (labs : List LabBooking)
        (rads : List RadiologyBooking) (adms : List Admission),
      List.Pairwise (fun a b => dateKey b ≤ dateKey a ∧
        (dateKey a = "" → dateKey b = ""))
        (report_financial appts patients doctors labs rads adms).1 := by
  have key : ∀ rs : List BillingRecord,
      List.Pairwise (fun a b => dateKey b ≤ dateKey a ∧
        (dateKey a = "" → dateKey b = "")) (sortRecords rs) := by
    intro rs
    haveI ht : IsTotal BillingRecord (fun a b => dateKey b ≤ dateKey a) :=
      ⟨fun a b => le_total (dateKey b) (dateKey a)⟩
    haveI htr : IsTrans BillingRecord (fun a b => dateKey b ≤ dateKey a) :=
      ⟨fun _ _ _ hab hbc => le_trans hbc hab⟩
    have hs : List.Pairwise (fun a b => dateKey b ≤ dateKey a)
        (sortRecords rs) :=
      List.sorted_insertionSort (fun a b => dateKey b ≤ dateKey a) rs
    exact hs.imp (fun hab =>
      ⟨hab, fun ha => le_antisymm (ha ▸ hab) (string_empty_le _)⟩)
  exact ⟨key, fun appts patients doctors labs rads adms => key _⟩

/-- Rounding an integral amount to two decimals is the identity. -/
theorem round2_int (n : ℤ) : round2 (n : ℚ) = n := by
  have h0 : ((n : ℚ) * 100) = ((n * 100 : ℤ) : ℚ) := by push_cast; ring
  unfold round2 roundHalfEven
  rw [h0, Int.floor_intCast]
  norm_num

/-- The three status buckets of the financial summary partition any record
list whose statuses all lie in the five appointment statuses. -/
theorem billed_partition (rs : List BillingRecord)
    (h : ∀ r ∈ rs, r.status = "Pending" ∨ r.status = "Confirmed" ∨
      r.status = "Completed" ∨ r.status = "Cancelled" ∨
      r.status = "No-Show") :
    totalBilled rs = totalCollected rs + totalPending rs + totalCancelled rs := by
  induction rs with
  | nil => simp [totalBilled, totalCollected, totalPending, totalCancelled]
  | cons r rs ih =>
    have hr := h r (List.mem_cons_self r rs)
    have ih' := ih (fun x hx => h x (List.mem_cons_of_mem r hx))
    rcases hr with h5 | h5 | h5 | h5 | h5 <;>
      simp [totalBilled, totalCollected, totalPending, totalCancelled,
        List.filter_cons, h5] at ih' ⊢ <;>
      linarith [ih']

/-- C5 as amended: the reconciliation identity
`total_billed = collected + pending + cancelled` holds for every snapshot
all of whose merged records carry one of the five appointment statuses
(`Pending`, `Confirmed`, `Completed`, `Cancelled`, `No-Show`); admission
records in status `Admitted`/`Discharged` are counted in `total_billed`
but in none of the three buckets, so they break the identity (see the
counterexample). -/
theorem claim_C5_amended (appts : List Appointment) (patients : List Patient)
    (doctors : List Doctor) (labs : List LabBooking)
    (rads : List RadiologyBooking) (adms : List Admission)
    (h : ∀ r ∈ (report_financial appts patients doctors labs rads adms).1,
      r.status = "Pending" ∨ r.status = "Confirmed" ∨
      r.status = "Completed" ∨ r.status = "Cancelled" ∨
      r.status = "No-Show") :
    totalBilled (report_financial appts patients doctors labs rads adms).1
      = totalCollected (report_financial appts patients doctors labs rads
          adms).1
        + totalPending (report_financial appts patients doctors labs rads
            adms).1
        + totalCancelled (report_financial appts patients doctors labs rads
            adms).1
    ∧ (report_financial appts patients doctors labs rads adms).2.total_billed
      = round2 (totalCollected (report_financial appts patients doctors labs
            rads adms).1
          + totalPending (report_financial appts patients doctors labs rads
              adms).1
          + totalCancelled (report_financial appts patients doctors labs
              rads adms).1) := by
  have h1 := billed_partition _ h
  refine ⟨h1, ?_⟩
  rw [← h1]
  rfl

/-- Witness for the amended C5 at a concrete input: one completed lab
booking of 650. -/
theorem claim_C5_witness :
    totalBilled (report_financial [] [] []
        [{ id := 1, patient_name := "John", patient_contact := "123",
           patient_email := none, test_id := none, test_name := "CBC",
           booking_date := "2025-06-01", booking_time := "09:00",
           status := "Completed", notes := none, amount := 650 }] [] []).1
      = totalCollected (report_financial [] [] []
          [{ id := 1, patient_name := "John", patient_contact := "123",
             patient_email := none, test_id := none, test_name := "CBC",
             booking_date := "2025-06-01", booking_time := "09:00",
             status := "Completed", notes := none, amount := 650 }] [] []).1
        + totalPending (report_financial [] [] []
            [{ id := 1, patient_name := "John", patient_contact := "123",
               patient_email := none, test_id := none, test_name := "CBC",
               booking_date := "2025-06-01", booking_time := "09:00",
               status := "Completed", notes := none, amount := 650 }] [] []).1
        + totalCancelled (report_financial [] [] []
            [{ id := 1, patient_name := "John", patient_contact := "123",
               patient_email := none, test_id := none, test_name := "CBC",
               booking_date := "2025-06-01", booking_time := "09:00",
               status := "Completed", notes := none, amount := 650 }] [] []).1 :=
  (claim_C5_amended [] [] []
    [{ id := 1, patient_name := "John", patient_contact := "123",
       patient_email := none, test_id := none, test_name := "CBC",
       booking_date := "2025-06-01", booking_time := "09:00",
       status := "Completed", notes := none, amount := 650 }] [] []
    (by decide)).1

/-- C5 counterexample: an admission record in status `'Admitted'` with a
non-zero amount makes the summary's reconciliation identity fail — its
amount is in `total_billed` but in none of collected/pending/cancelled. -/
theorem claim_C5_counterexample :
    (report_financial [] [{ id := 1, name := "John Doe", email := none }]
        [] [] []
        [{ id := 1, patient_id := 1, doctor_id := none, ward := "ICU",
           room_no := none, bed_no := none, admit_date := "2025-06-01",
           discharge_date := none, diagnosis := none, treatment := none,
           amount := some 100, status := "Admitted" }]).2.total_billed
      ≠ (report_financial [] [{ id := 1, name := "John Doe", email := none }]
          [] [] []
          [{ id := 1, patient_id := 1, doctor_id := none, ward := "ICU",
             room_no := none, bed_no := none, admit_date := "2025-06-01",
             discharge_date := none, diagnosis := none, treatment := none,
             amount := some 100, status := "Admitted" }]).2.collected
        + (report_financial [] [{ id := 1, name := "John Doe", email := none }]
            [] [] []
            [{ id := 1, patient_id := 1, doctor_id := none, ward := "ICU",
               room_no := none, bed_no := none, admit_date := "2025-06-01",
               discharge_date := none, diagnosis := none, treatment := none,
               amount := some 100, status := "Admitted" }]).2.pending
        + (report_financial [] [{ id := 1, name := "John Doe", email := none }]
            [] [] []
            [{ id := 1, patient_id := 1, doctor_id := none, ward := "ICU",
               room_no := none, bed_no := none, admit_date := "2025-06-01",
               discharge_date := none, diagnosis := none, treatment := none,
               amount := some 100, status := "Admitted" }]).2.cancelled := by
  have e1 : (report_financial [] [{ id := 1, name := "John Doe", email := none }]
      [] [] []
      [{ id := 1, patient_id := 1, doctor_id := none, ward := "ICU",
         room_no := none, bed_no := none, admit_date := "2025-06-01",
         discharge_date := none, diagnosis := none, treatment := none,
         amount := some 100, status := "Admitted" }]).2.total_billed
      = round2 (totalBilled
        [{ rid := "ADM-1", domain := "Admission", patient_name := "John Doe",
           service_name := "Admission — ICU", department := "Inpatient",
           date := some "2025-06-01", status := "Admitted", amount := 100,
           note := some "" }]) := rfl
  have e2 : (report_financial [] [{ id := 1, name := "John Doe", email := none }]
      [] [] []
      [{ id := 1, patient_id := 1, doctor_id := none, ward := "ICU",
         room_no := none, bed_no := none, admit_date := "2025-06-01",
         discharge_date := none, diagnosis := none, treatment := none,
         amount := some 100, status := "Admitted" }]).2.collected
      = round2 (totalCollected
        [{ rid := "ADM-1", domain := "Admission", patient_name := "John Doe",
           service_name := "Admission — ICU", department := "Inpatient",
           date := some "2025-06-01", status := "Admitted", amount := 100,
           note := some "" }]) := rfl
  have e3 : (report_financial [] [{ id := 1, name := "John Doe", email := none }]
      [] [] []
      [{ id := 1, patient_id := 1, doctor_id := none, ward := "ICU",
         room_no := none, bed_no := none, admit_date := "2025-06-01",
         discharge_date := none, diagnosis := none, treatment := none,
         amount := some 100, status := "Admitted" }]).2.pending
      = round2 (totalPending
        [{ rid := "ADM-1", domain := "Admission", patient_name := "John Doe",
           service_name := "Admission — ICU", department := "Inpatient",
           date := some "2025-06-01", status := "Admitted", amount := 100,
           note := some "" }]) := rfl
  have e4 : (report_financial [] [{ id := 1, name := "John Doe", email := none }]
      [] [] []
      [{ id := 1, patient_id := 1, doctor_id := none, ward := "ICU",
         room_no := none, bed_no := none, admit_date := "2025-06-01",
         discharge_date := none, diagnosis := none, treatment := none,
         amount := some 100, status := "Admitted" }]).2.cancelled
      = round2 (totalCancelled
        [{ rid := "ADM-1", domain := "Admission", patient_name := "John Doe",
           service_name := "Admission — ICU", department := "Inpatient",
           date := some "2025-06-01", status := "Admitted", amount := 100,
           note := some "" }]) := rfl
  rw [e1, e2, e3, e4]
  have hb : totalBilled
      [{ rid := "ADM-1", domain := "Admission", patient_name := "John Doe",
         service_name := "Admission — ICU", department := "Inpatient",
         date := some "2025-06-01", status := "Admitted", amount := 100,
         note := some "" }] = 100 := by
    simp [totalBilled]
  have hc : totalCollected
      [{ rid := "ADM-1", domain := "Admission", patient_name := "John Doe",
         service_name := "Admission — ICU", department := "Inpatient",
         date := some "2025-06-01", status := "Admitted", amount := 100,
         note := some "" }] = 0 := by
    simp [totalCollected]
  have hp : totalPending
      [{ rid := "ADM-1", domain := "Admission", patient_name := "John Doe",
         service_name := "Admission — ICU", department := "Inpatient",
         date := some "2025-06-01", status := "Admitted", amount := 100,
         note := some "" }] = 0 := by
    simp [totalPending]
  have hx : totalCancelled
      [{ rid := "ADM-1", domain := "Admission", patient_name := "John Doe",
         service_name := "Admission — ICU", department := "Inpatient",
         date := some "2025-06-01", status := "Admitted", amount := 100,
         note := some "" }] = 0 := by
    simp [totalCancelled]
  rw [hb, hc, hp, hx]
  have h100 : round2 (100 : ℚ) = 100 := by
    have := round2_int 100
    norm_num at this
    exact this
  have h0 : round2 (0 : ℚ) = 0 := by
    have := round2_int 0
    norm_num at this
    exact this
  rw [h100, h0]
  norm_num

end MedicarePlus
